import Mathlib

/-!
Shallow embedding of the dashcam capture pipeline (src/dashcam.cpp and
src/dashgrab.cpp) and proofs about its frame-advance policy, its encoder
delivery callback, and the upload receiver.

C `int`/`int64_t` values are modelled as `Int` (no value in any claim
approaches the 32/64-bit bounds); C integer division truncates toward
zero, which is `Int.tdiv`.
-/

namespace Dashcam

/-! ## Frame advance method codes (src/dashcam.cpp lines 100-107) -/

def FRAME_NEXT_SINGLE : Int := 0
def FRAME_NEXT_TIMELAPSE : Int := 1
def FRAME_NEXT_KEYPRESS : Int := 2
def FRAME_NEXT_FOREVER : Int := 3
def FRAME_NEXT_GPIO : Int := 4
def FRAME_NEXT_SIGNAL : Int := 5
def FRAME_NEXT_IMMEDIATELY : Int := 6

/-- The fields of `RASPISTILL_STATE` that `wait_for_next_frame` reads
(src/dashcam.cpp lines 115-163). -/
structure RaspistillState where
  timeout : Int          -- ms; 0 disables the overall deadline
  timelapse : Int        -- ms between timelapse frames
  frameNextMethod : Int
  deriving Repr, DecidableEq

/-- The two `static int64_t` locals of `wait_for_next_frame`
(`complete_time`, line 1104, and `next_frame_ms`, line 1134), both
initialised to `-1`, modelled as explicit state threaded through calls. -/
structure WaitStatics where
  complete_time : Int
  next_frame_ms : Int
  deriving Repr, DecidableEq

/-- External inputs consumed by one `wait_for_next_frame` call: the clock
read at entry (line 1107), the clock read again after the first-tick
timelapse sleep (line 1143), and the `getchar()` result in KEYPRESS mode
(line 1182). -/
structure WaitEnv where
  now : Int
  nowAfterSleep : Int
  ch : Int
  deriving Repr, DecidableEq

/-- The distinct `vcos_log_error` lines of the TIMELAPSE branch, recorded
so the branch taken is observable: `late f d` is line 1156
("Frame %d is %d ms late"), `skipping f g` is line 1160
("Skipping frame %d to restart at frame %d"). -/
inductive TLLog where
  | none
  | late (frame : Int) (lateMs : Int)
  | skipping (frame : Int) (restartFrame : Int)
  deriving Repr, DecidableEq

/-- Observable outcome of one `wait_for_next_frame` call: the C return
value (`0` = stop, nonzero = continue), the updated `*frame` counter, the
updated statics, every `vcos_sleep` duration in call order, and the
TIMELAPSE log line if any. -/
structure WaitResult where
  ret : Int
  frame : Int
  statics : WaitStatics
  sleeps : List Int
  log : TLLog
  deriving Repr, DecidableEq

/-- Embedding of `wait_for_next_frame` (src/dashcam.cpp lines 1103-1248).
`frame` is the value behind the `int *frame` argument. -/
def wait_for_next_frame (state : RaspistillState) (frame : Int)
    (st : WaitStatics) (env : WaitEnv) : WaitResult :=
  let current_time := env.now
  -- lines 1109-1110: initialise the deadline on the first ever call
  let complete_time :=
    if st.complete_time = -1 then current_time + state.timeout
    else st.complete_time
  -- lines 1114-1115
  let keep_running : Int :=
    if current_time ≥ complete_time ∧ state.timeout ≠ 0 then 0 else 1
  if state.frameNextMethod = FRAME_NEXT_SINGLE then
    -- lines 1118-1121: sleep 5000 then return 0
    { ret := 0, frame := frame,
      statics := { complete_time := complete_time,
                   next_frame_ms := st.next_frame_ms },
      sleeps := [5000], log := .none }
  else if state.frameNextMethod = FRAME_NEXT_FOREVER then
    -- lines 1123-1131: *frame += 1; sleep 10000; return 1
    { ret := 1, frame := frame + 1,
      statics := { complete_time := complete_time,
                   next_frame_ms := st.next_frame_ms },
      sleeps := [10000], log := .none }
  else if state.frameNextMethod = FRAME_NEXT_TIMELAPSE then
    -- lines 1133-1174
    let frame := frame + 1
    if st.next_frame_ms = -1 then
      -- lines 1139-1146: sleep(timelapse); re-read clock; set next
      { ret := keep_running, frame := frame,
        statics := { complete_time := complete_time,
                     next_frame_ms := env.nowAfterSleep + state.timelapse },
        sleeps := [state.timelapse], log := .none }
    else
      let this_delay_ms := st.next_frame_ms - current_time
      if this_delay_ms < 0 then
        if -this_delay_ms < state.timelapse.tdiv 2 then
          -- lines 1152-1157: accept the lateness
          { ret := keep_running, frame := frame,
            statics := { complete_time := complete_time,
                         next_frame_ms := st.next_frame_ms + state.timelapse },
            sleeps := [], log := .late frame (-this_delay_ms) }
        else
          -- lines 1158-1166: skip
          let nskip := 1 + (-this_delay_ms).tdiv state.timelapse
          { ret := keep_running, frame := frame + nskip,
            statics := { complete_time := complete_time,
                         next_frame_ms :=
                           st.next_frame_ms + (nskip + 1) * state.timelapse },
            sleeps := [this_delay_ms + nskip * state.timelapse],
            log := .skipping frame (frame + nskip) }
      else
        -- lines 1167-1170: on time
        { ret := keep_running, frame := frame,
          statics := { complete_time := complete_time,
                       next_frame_ms := st.next_frame_ms + state.timelapse },
          sleeps := [this_delay_ms], log := .none }
  else if state.frameNextMethod = FRAME_NEXT_KEYPRESS then
    -- lines 1176-1189
    { ret := if env.ch = 120 ∨ env.ch = 88 then 0 else keep_running,
      frame := frame + 1,
      statics := { complete_time := complete_time,
                   next_frame_ms := st.next_frame_ms },
      sleeps := [], log := .none }
  else if state.frameNextMethod = FRAME_NEXT_IMMEDIATELY then
    -- lines 1191-1206
    { ret := keep_running, frame := frame + 1,
      statics := { complete_time := complete_time,
                   next_frame_ms := st.next_frame_ms },
      sleeps := [if frame = 0 then 1000 else 30], log := .none }
  else if state.frameNextMethod = FRAME_NEXT_GPIO then
    -- lines 1208-1211: return 0
    { ret := 0, frame := frame,
      statics := { complete_time := complete_time,
                   next_frame_ms := st.next_frame_ms },
      sleeps := [], log := .none }
  else if state.frameNextMethod = FRAME_NEXT_SIGNAL then
    -- lines 1213-1243: sigwait then *frame += 1; return keep_running
    { ret := keep_running, frame := frame + 1,
      statics := { complete_time := complete_time,
                   next_frame_ms := st.next_frame_ms },
      sleeps := [], log := .none }
  else
    -- lines 1246-1247: fell through the switch
    { ret := keep_running, frame := frame,
      statics := { complete_time := complete_time,
                   next_frame_ms := st.next_frame_ms },
      sleeps := [], log := .none }

/-! ## Encoder delivery callback (src/dashcam.cpp lines 461-530) -/

/-- The fields of an `MMAL_BUFFER_HEADER_T` that `encoder_buffer_callback`
inspects: the payload length and the two flag bits it tests on line 501
(`MMAL_BUFFER_HEADER_FLAG_FRAME_END` and
`MMAL_BUFFER_HEADER_FLAG_TRANSMISSION_FAILED`). -/
structure MMALBuffer where
  length : Nat
  flagFrameEnd : Bool
  flagTransmissionFailed : Bool
  deriving Repr, DecidableEq

/-- External results consumed by one callback invocation: the fd returned
by `open` on line 480 (used only when the global fd is `-1`), the byte
count returned by `write` on line 489, whether `mmal_queue_get` on line
516 yields a buffer, and whether `mmal_port_send_buffer` on line 519
succeeds. -/
structure CbEnv where
  openFd : Int
  writeLen : Int
  queueHas : Bool
  sendOk : Bool
  deriving Repr, DecidableEq

/-- Primitive side effects of the callback, in execution order, so that
post/release counts can be read off one invocation's trace. -/
inductive CbAction where
  | openOutput (fd : Int)            -- open("/var/www/html/left.jpg"), line 480
  | write (fd : Int) (len : Nat) (result : Int)  -- write(...), line 489
  | logWriteError                    -- printf("Write error, aborting"), line 493
  | logNoState                       -- vcos_log_error(... no state), line 505
  | release                          -- mmal_buffer_header_release, line 509
  | logReturnBuffer                  -- vcos_log_error(... return a buffer), line 521
  | post                             -- vcos_semaphore_post, line 526
  | closeOutput (fd : Int)           -- close(outputFileFD), line 527
  deriving Repr, DecidableEq

/-- Outcome of one callback invocation: the action trace, the new value of
the global `outputFileFD`, and whether execution reached the null-pointer
dereference of `pData` on line 516 (which can only happen when the
callback is invoked with no userdata while the port is enabled; the
buffer release on line 509 has already executed by then). -/
structure CbResult where
  trace : List CbAction
  outputFileFD : Int
  crashed : Bool
  deriving Repr, DecidableEq

/-- Embedding of `encoder_buffer_callback` (src/dashcam.cpp lines
470-530).  `hasUserdata` is whether `port->userdata` (`pData`) is
non-null, `portEnabled` is `port->is_enabled`, and `fd0` is the global
`outputFileFD` at entry. -/
def encoder_buffer_callback (hasUserdata portEnabled : Bool)
    (buffer : MMALBuffer) (fd0 : Int) (env : CbEnv) : CbResult :=
  -- lines 478-506: the pData branch computes `complete`, may open the
  -- sink and write the payload
  let pre : List CbAction × Int × Bool :=
    if hasUserdata then
      let openActs := if fd0 = -1 then [CbAction.openOutput env.openFd] else []
      let fd := if fd0 = -1 then env.openFd else fd0
      let writeActs :=
        if buffer.length ≠ 0 ∧ fd > 0 then
          CbAction.write fd buffer.length env.writeLen ::
            (if env.writeLen ≠ (buffer.length : Int) then [CbAction.logWriteError]
             else [])
        else []
      -- line 490: `complete = 1` when the write returned a different length
      let completeW : Bool :=
        buffer.length ≠ 0 ∧ fd > 0 ∧ env.writeLen ≠ (buffer.length : Int)
      -- lines 500-503: `complete = 1` on an end-of-frame or failure marker
      let complete : Bool :=
        completeW ∨ buffer.flagFrameEnd ∨ buffer.flagTransmissionFailed
      (openActs ++ writeActs, fd, complete)
    else
      ([CbAction.logNoState], fd0, false)
  let fd := pre.2.1
  let complete := pre.2.2
  -- line 509: unconditional release
  let trace := pre.1 ++ [CbAction.release]
  if portEnabled then
    if hasUserdata then
      -- lines 516-522
      let resubmit :=
        if env.queueHas then
          if env.sendOk then [] else [CbAction.logReturnBuffer]
        else [CbAction.logReturnBuffer]
      -- lines 525-529
      if complete then
        { trace := trace ++ resubmit ++ [CbAction.post, CbAction.closeOutput fd],
          outputFileFD := 0, crashed := false }
      else
        { trace := trace ++ resubmit, outputFileFD := fd, crashed := false }
    else
      -- line 516 dereferences the null `pData`
      { trace := trace, outputFileFD := fd, crashed := true }
  else
    if complete then
      { trace := trace ++ [CbAction.post, CbAction.closeOutput fd],
        outputFileFD := 0, crashed := false }
    else
      { trace := trace, outputFileFD := fd, crashed := false }

/-- Number of semaphore posts in a trace. -/
def countPosts (t : List CbAction) : Nat :=
  t.countP (fun a => a = CbAction.post)

/-- Number of buffer releases in a trace. -/
def countReleases (t : List CbAction) : Nat :=
  t.countP (fun a => a = CbAction.release)

/-- One capture session as the delivery callback sees it: the orchestrator
loop (src/dashcam.cpp line 1395) resets `outputFileFD` to `-1`, then the
enabled encoder port delivers a sequence of buffers to the callback.
Returns the concatenated trace and the final `outputFileFD`. -/
def runSession (portEnabled : Bool) :
    List (MMALBuffer × CbEnv) → Int → List CbAction × Int
  | [], fd => ([], fd)
  | (b, env) :: rest, fd =>
    let r := encoder_buffer_callback true portEnabled b fd env
    let (t, fd') := runSession portEnabled rest r.outputFileFD
    (r.trace ++ t, fd')

/-- A zero-processing-delay run of the TIMELAPSE policy: `n` successive
`wait_for_next_frame` calls where each call is entered at the instant the
previous one woke (entry time plus the durations it slept), and the clock
read after the first-tick sleep (src/dashcam.cpp line 1143) is the entry
time plus the slept interval.  The triple is
(entry time, frame counter, statics). -/
def timelapseRun (state : RaspistillState) :
    Nat → Int × Int × WaitStatics → Int × Int × WaitStatics
  | 0, s => s
  | n + 1, s =>
    let p := timelapseRun state n s
    let r := wait_for_next_frame state p.2.1 p.2.2
      ⟨p.1, p.1 + state.timelapse, 0⟩
    (p.1 + r.sleeps.sum, r.frame, r.statics)

end Dashcam

namespace Dashgrab

/-! ## Upload receiver (src/dashgrab.cpp) -/

/-- `INADDR_ANY`, the wildcard IPv4 address, numerically `0`. -/
def INADDR_ANY : Nat := 0

/-- `serv_addr.sin_addr.s_addr` as set on src/dashgrab.cpp line 57, the
value `acceptThread` passes to `processClient` on line 75. -/
def serv_addr_s_addr : Nat := INADDR_ANY

/-- The output filename built by `processClient` (src/dashgrab.cpp lines
29-32): an `ostringstream` streams the `unsigned long` address in
decimal between a fixed prefix and suffix. -/
def grabFilename (address : Nat) : String :=
  "/var/www/html/grab" ++ toString address ++ ".jpeg"

/-- The bytes `processClient` writes to its output file (src/dashgrab.cpp
lines 37-42): each `read` result is modelled as one chunk; a chunk is
written iff its length is positive, and the loop ends at the first
non-positive read (peer close / error, modelled as the empty chunk). -/
def processClientWrites : List (List Nat) → List Nat
  | [] => []
  | c :: rest => if c = [] then [] else c ++ processClientWrites rest

/-- One accepted connection: the peer's address (`cli_addr.sin_addr.s_addr`
as filled by `accept` on src/dashgrab.cpp line 72) and the sequence of
`read` results its socket yields. -/
structure Connection where
  peerAddr : Nat
  reads : List (List Nat)
  deriving Repr, DecidableEq

/-- What `acceptThread` does with one accepted connection
(src/dashgrab.cpp line 75): it launches
`processClient(newsockfd, serv_addr.sin_addr.s_addr)` — note the address
argument is the server's bound address, not `cli_addr` — yielding the
output filename and the bytes written to it. -/
def acceptConnection (c : Connection) : String × List Nat :=
  (grabFilename serv_addr_s_addr, processClientWrites c.reads)

end Dashgrab

open Dashcam Dashgrab

/-! ## Theorems -/

/-- C3 counterexample: with the overall deadline enabled
(`timeout = 5000 ≠ 0`) and already reached (`now = 200 ≥ complete_time =
100`), a FOREVER-policy call still returns nonzero (continue), so it is
false that every policy returns stop once the deadline has passed. -/
theorem C3_counterexample :
    (5000 : Int) ≠ 0 ∧ (100 : Int) ≤ 200 ∧
      (wait_for_next_frame ⟨5000, 0, FRAME_NEXT_FOREVER⟩ 0 ⟨100, -1⟩
          ⟨200, 0, 0⟩).ret ≠ 0 := by
  decide

/-- C4 counterexample: a GPIO-mode call of `wait_for_next_frame` returns
`0`, which by the function's own contract ("!0 if to continue, 0 if
reached end of run", src/dashcam.cpp line 1101) means stop — refuting the
claim that the result is always continue. -/
theorem C4_counterexample :
    (wait_for_next_frame ⟨0, 0, FRAME_NEXT_GPIO⟩ 7 ⟨5, -1⟩ ⟨0, 0, 0⟩).ret
      = 0 := by
  decide

/-- C7 counterexample: a TIMELAPSE call entered 1500 ms past the deadline
(`next_frame_ms = 0`, `now = 1500`, interval 1000) takes the skip branch
and advances the frame counter by 3, not by exactly one, refuting the
claim for the TIMELAPSE policy. -/
theorem C7_counterexample :
    (wait_for_next_frame ⟨0, 1000, FRAME_NEXT_TIMELAPSE⟩ 0 ⟨5, 0⟩
        ⟨1500, 0, 0⟩).frame ≠ 0 + 1 := by
  decide

/-- C1 counterexample: a session in which the first delivered buffer (2
payload bytes, no end-of-frame or transmission-failed marker) suffers a
short write (`write` returns 1) and the second buffer carries the
end-of-frame marker posts the completion semaphore twice — the first post
in response to a buffer with no marker — refuting both halves of the
claimed invariant. -/
theorem C1_counterexample :
    countPosts (runSession true
        [(⟨2, false, false⟩, ⟨3, 1, true, true⟩),
         (⟨0, true, false⟩, ⟨3, 0, true, true⟩)] (-1)).1 = 2 := by
  decide

/-- C5 counterexample: a delivered buffer with 4 payload bytes, no
end-of-frame or transmission-failed marker, and a short write (`write`
returns 2) makes the callback post the completion semaphore in that very
invocation — the session does not wait for the end-of-frame marker to be
observed, refuting the claimed completion mechanism (and making a second
post possible when the marker buffer later arrives). -/
theorem C5_counterexample :
    (encoder_buffer_callback true false ⟨4, false, false⟩ 7
        ⟨3, 2, true, true⟩).trace
      = [.write 7 4 2, .logWriteError, .release, .post, .closeOutput 7] := by
  decide

/-- C9: `acceptThread` (src/dashgrab.cpp line 75) passes
`serv_addr.sin_addr.s_addr` — the server's bound wildcard address
`INADDR_ANY = 0`, set on line 57 — to `processClient` instead of the
accepted peer's `cli_addr.sin_addr.s_addr`, so two connections from
distinct peers (here 167772161 = 10.0.0.1 and 167772162 = 10.0.0.2) are
written to the same file `/var/www/html/grab0.jpeg`; the bytes of each
connection are still written verbatim and in order. -/
theorem C9_same_file_for_distinct_peers :
    (acceptConnection ⟨167772161, [[1, 2], [3]]⟩).1
        = (acceptConnection ⟨167772162, [[4]]⟩).1 ∧
      (167772161 : Nat) ≠ 167772162 ∧
      (acceptConnection ⟨167772161, [[1, 2], [3]]⟩).1
        = "/var/www/html/grab0.jpeg" ∧
      (acceptConnection ⟨167772161, [[1, 2], [3]]⟩).2 = [1, 2, 3] := by
  refine ⟨rfl, by decide, rfl, by decide⟩

/-- C8: on every execution path of `encoder_buffer_callback` — short
write, end-of-frame or transmission-failed marker, normal payload, and
the protocol-violation path where the callback is invoked with no
userdata (where the release on src/dashcam.cpp line 509 precedes the
null-pointer dereference of line 516) — the delivered buffer is released
back to the pool exactly once. -/
theorem C8_buffer_released_exactly_once (hasUserdata portEnabled : Bool)
    (buffer : MMALBuffer) (fd0 : Int) (env : CbEnv) :
    countReleases
      (encoder_buffer_callback hasUserdata portEnabled buffer fd0 env).trace
      = 1 := by
  unfold encoder_buffer_callback countReleases
  dsimp only
  split_ifs <;>
    simp [List.countP_append, List.countP_cons]

/-- C10: for a frame-advance method code outside the seven defined
policies (0–6), `wait_for_next_frame` falls through the switch
(src/dashcam.cpp lines 1246-1247): no sleep, no log, no frame-counter or
`next_frame_ms` change, and the return value is exactly the deadline
guard — stop iff the overall deadline is enabled and has been reached,
continue otherwise. -/
theorem C10_unknown_method_falls_through (state : RaspistillState)
    (frame : Int) (st : WaitStatics) (env : WaitEnv)
    (h : state.frameNextMethod < 0 ∨ 6 < state.frameNextMethod) :
    ((wait_for_next_frame state frame st env).frame = frame ∧
      (wait_for_next_frame state frame st env).sleeps = [] ∧
      (wait_for_next_frame state frame st env).log = TLLog.none ∧
      (wait_for_next_frame state frame st env).statics.next_frame_ms
        = st.next_frame_ms) ∧
    ((wait_for_next_frame state frame st env).ret = 0 ↔
      ((if st.complete_time = -1 then env.now + state.timeout
        else st.complete_time) ≤ env.now ∧ state.timeout ≠ 0)) ∧
    ((wait_for_next_frame state frame st env).ret = 0 ∨
      (wait_for_next_frame state frame st env).ret = 1) := by
  have h0 : state.frameNextMethod ≠ FRAME_NEXT_SINGLE := by
    simp only [FRAME_NEXT_SINGLE]; omega
  have h1 : state.frameNextMethod ≠ FRAME_NEXT_TIMELAPSE := by
    simp only [FRAME_NEXT_TIMELAPSE]; omega
  have h2 : state.frameNextMethod ≠ FRAME_NEXT_KEYPRESS := by
    simp only [FRAME_NEXT_KEYPRESS]; omega
  have h3 : state.frameNextMethod ≠ FRAME_NEXT_FOREVER := by
    simp only [FRAME_NEXT_FOREVER]; omega
  have h4 : state.frameNextMethod ≠ FRAME_NEXT_GPIO := by
    simp only [ FRAME_NEXT_GPIO]; omega
  have h5 : state.frameNextMethod ≠ FRAME_NEXT_SIGNAL := by
    simp only [FRAME_NEXT_SIGNAL]; omega
  have h6 : state.frameNextMethod ≠ FRAME_NEXT_IMMEDIATELY := by
    simp only [FRAME_NEXT_IMMEDIATELY]; omega
  simp only [wait_for_next_frame, if_neg h0, if_neg h1, if_neg h2,
    if_neg h3, if_neg h4, if_neg h5, if_neg h6]
  split_ifs with hc <;> simp_all [ge_iff_le]

/-- Closed instance of `C10_unknown_method_falls_through` at method code
7 with the deadline disabled. -/
theorem C10_unknown_method_falls_through_witness :
    ((7 : Int) < 0 ∨ 6 < (7 : Int)) ∧
    (((wait_for_next_frame ⟨0, 0, 7⟩ 3 ⟨5, 9⟩ ⟨100, 0, 0⟩).frame = 3 ∧
      (wait_for_next_frame ⟨0, 0, 7⟩ 3 ⟨5, 9⟩ ⟨100, 0, 0⟩).sleeps = [] ∧
      (wait_for_next_frame ⟨0, 0, 7⟩ 3 ⟨5, 9⟩ ⟨100, 0, 0⟩).log
        = TLLog.none ∧
      (wait_for_next_frame ⟨0, 0, 7⟩ 3 ⟨5, 9⟩ ⟨100, 0, 0⟩).statics.next_frame_ms
        = 9) ∧
    ((wait_for_next_frame ⟨0, 0, 7⟩ 3 ⟨5, 9⟩ ⟨100, 0, 0⟩).ret = 0 ↔
      ((if (5 : Int) = -1 then (100 : Int) + 0 else 5) ≤ 100 ∧
        (0 : Int) ≠ 0)) ∧
    ((wait_for_next_frame ⟨0, 0, 7⟩ 3 ⟨5, 9⟩ ⟨100, 0, 0⟩).ret = 0 ∨
      (wait_for_next_frame ⟨0, 0, 7⟩ 3 ⟨5, 9⟩ ⟨100, 0, 0⟩).ret = 1)) :=
  ⟨by decide,
    C10_unknown_method_falls_through ⟨0, 0, 7⟩ 3 ⟨5, 9⟩ ⟨100, 0, 0⟩
      (by decide)⟩

/-- C3 amended: when the overall deadline is enabled (`timeout ≠ 0`),
already initialised, and reached, `wait_for_next_frame` returns stop for
every policy except FOREVER — whose branch (src/dashcam.cpp lines
1123-1131) returns 1 unconditionally, ignoring the deadline. -/
theorem C3_amended_deadline_stops_all_but_forever (state : RaspistillState)
    (frame : Int) (st : WaitStatics) (env : WaitEnv)
    (hct : st.complete_time ≠ -1) (hdl : st.complete_time ≤ env.now)
    (hto : state.timeout ≠ 0) :
    (state.frameNextMethod ≠ FRAME_NEXT_FOREVER →
      (wait_for_next_frame state frame st env).ret = 0) ∧
    (state.frameNextMethod = FRAME_NEXT_FOREVER →
      (wait_for_next_frame state frame st env).ret = 1) := by
  unfold wait_for_next_frame
  dsimp only
  split_ifs <;>
    simp_all [FRAME_NEXT_SINGLE, FRAME_NEXT_TIMELAPSE, FRAME_NEXT_KEYPRESS,
      FRAME_NEXT_FOREVER, FRAME_NEXT_GPIO, FRAME_NEXT_SIGNAL,
      FRAME_NEXT_IMMEDIATELY, ge_iff_le]

/-- Closed instance of `C3_amended_deadline_stops_all_but_forever`:
SINGLE mode with the deadline enabled and passed. -/
theorem C3_amended_witness :
    ((5 : Int) ≠ -1 ∧ (5 : Int) ≤ 200 ∧ (1000 : Int) ≠ 0) ∧
    (((0 : Int) ≠ FRAME_NEXT_FOREVER →
      (wait_for_next_frame ⟨1000, 0, 0⟩ 2 ⟨5, -1⟩ ⟨200, 0, 0⟩).ret = 0) ∧
    ((0 : Int) = FRAME_NEXT_FOREVER →
      (wait_for_next_frame ⟨1000, 0, 0⟩ 2 ⟨5, -1⟩ ⟨200, 0, 0⟩).ret = 1)) :=
  ⟨⟨by decide, by decide, by decide⟩,
    C3_amended_deadline_stops_all_but_forever ⟨1000, 0, 0⟩ 2 ⟨5, -1⟩
      ⟨200, 0, 0⟩ (by decide) (by decide) (by decide)⟩

/-- C4 amended: in GPIO mode `wait_for_next_frame` always returns stop
(`0`), performs no wait, and leaves the frame counter unchanged
(src/dashcam.cpp lines 1208-1211); pacing and counting are left to the
caller. -/
theorem C4_amended_gpio_always_stops (state : RaspistillState)
    (frame : Int) (st : WaitStatics) (env : WaitEnv)
    (h : state.frameNextMethod = FRAME_NEXT_GPIO) :
    (wait_for_next_frame state frame st env).ret = 0 ∧
    (wait_for_next_frame state frame st env).frame = frame ∧
    (wait_for_next_frame state frame st env).sleeps = [] := by
  unfold wait_for_next_frame
  dsimp only
  rw [h]
  simp [ FRAME_NEXT_GPIO, FRAME_NEXT_SINGLE, FRAME_NEXT_FOREVER,
    FRAME_NEXT_TIMELAPSE, FRAME_NEXT_KEYPRESS, FRAME_NEXT_IMMEDIATELY]

/-- Closed instance of `C4_amended_gpio_always_stops`. -/
theorem C4_amended_witness :
    ( FRAME_NEXT_GPIO = FRAME_NEXT_GPIO) ∧
    ((wait_for_next_frame ⟨0, 0, FRAME_NEXT_GPIO⟩ 9 ⟨5, -1⟩
        ⟨0, 0, 0⟩).ret = 0 ∧
      (wait_for_next_frame ⟨0, 0, FRAME_NEXT_GPIO⟩ 9 ⟨5, -1⟩
        ⟨0, 0, 0⟩).frame = 9 ∧
      (wait_for_next_frame ⟨0, 0, FRAME_NEXT_GPIO⟩ 9 ⟨5, -1⟩
        ⟨0, 0, 0⟩).sleeps = []) :=
  ⟨rfl, C4_amended_gpio_always_stops ⟨0, 0, FRAME_NEXT_GPIO⟩ 9 ⟨5, -1⟩
    ⟨0, 0, 0⟩ rfl⟩

/-- C7 amended: per `wait_for_next_frame` call the frame counter is
incremented by exactly one for the KEYPRESS, FOREVER, IMMEDIATE and
SIGNAL policies and left unchanged for SINGLE and GPIO; for TIMELAPSE it
is incremented by at least one (assuming a nonnegative interval), and by
exactly one only when the skip branch does not fire — a late tick that
reaches the skip branch adds `1 + nskip` (src/dashcam.cpp lines
1136-1137 and 1159-1162). -/
theorem C7_amended_frame_increments (state : RaspistillState) (frame : Int)
    (st : WaitStatics) (env : WaitEnv) (hint : 0 ≤ state.timelapse) :
    ((state.frameNextMethod = FRAME_NEXT_KEYPRESS ∨
      state.frameNextMethod = FRAME_NEXT_FOREVER ∨
      state.frameNextMethod = FRAME_NEXT_IMMEDIATELY ∨
      state.frameNextMethod = FRAME_NEXT_SIGNAL) →
      (wait_for_next_frame state frame st env).frame = frame + 1) ∧
    ((state.frameNextMethod = FRAME_NEXT_SINGLE ∨
      state.frameNextMethod = FRAME_NEXT_GPIO) →
      (wait_for_next_frame state frame st env).frame = frame) ∧
    (state.frameNextMethod = FRAME_NEXT_TIMELAPSE →
      frame + 1 ≤ (wait_for_next_frame state frame st env).frame ∧
      ((∀ f g, (wait_for_next_frame state frame st env).log
          ≠ TLLog.skipping f g) →
        (wait_for_next_frame state frame st env).frame = frame + 1)) := by
  refine ⟨?_, ?_, ?_⟩
  · rintro (h | h | h | h) <;>
      (unfold wait_for_next_frame; dsimp only; rw [h];
       simp [FRAME_NEXT_SINGLE, FRAME_NEXT_TIMELAPSE, FRAME_NEXT_KEYPRESS,
         FRAME_NEXT_FOREVER, FRAME_NEXT_GPIO, FRAME_NEXT_SIGNAL,
         FRAME_NEXT_IMMEDIATELY])
  · rintro (h | h) <;>
      (unfold wait_for_next_frame; dsimp only; rw [h];
       simp [FRAME_NEXT_SINGLE, FRAME_NEXT_TIMELAPSE, FRAME_NEXT_KEYPRESS,
         FRAME_NEXT_FOREVER, FRAME_NEXT_GPIO, FRAME_NEXT_SIGNAL,
         FRAME_NEXT_IMMEDIATELY])
  · intro h
    unfold wait_for_next_frame
    dsimp only
    rw [h]
    rw [if_neg (show ¬FRAME_NEXT_TIMELAPSE = FRAME_NEXT_SINGLE by decide),
        if_neg (show ¬FRAME_NEXT_TIMELAPSE = FRAME_NEXT_FOREVER by decide),
        if_pos (show FRAME_NEXT_TIMELAPSE = FRAME_NEXT_TIMELAPSE from rfl)]
    split_ifs <;>
      refine ⟨?_, ?_⟩ <;>
      first
        | (intro hno
           dsimp at hno ⊢
           first
             | rfl
             | exact absurd rfl (hno _ _))
        | (dsimp
           first
             | omega
             | (have hq := @Int.tdiv_nonneg (-(st.next_frame_ms - env.now))
                  state.timelapse (by omega) hint
                omega))

/-- Closed instance of `C7_amended_frame_increments`: SIGNAL mode
increments the counter by exactly one. -/
theorem C7_amended_witness :
    (0 : Int) ≤ 1000 ∧
    ((((5 : Int) = FRAME_NEXT_KEYPRESS ∨ (5 : Int) = FRAME_NEXT_FOREVER ∨
        (5 : Int) = FRAME_NEXT_IMMEDIATELY ∨ (5 : Int) = FRAME_NEXT_SIGNAL) →
      (wait_for_next_frame ⟨0, 1000, 5⟩ 4 ⟨7, -1⟩ ⟨0, 0, 0⟩).frame = 4 + 1) ∧
    (((5 : Int) = FRAME_NEXT_SINGLE ∨ (5 : Int) = FRAME_NEXT_GPIO) →
      (wait_for_next_frame ⟨0, 1000, 5⟩ 4 ⟨7, -1⟩ ⟨0, 0, 0⟩).frame = 4) ∧
    ((5 : Int) = FRAME_NEXT_TIMELAPSE →
      4 + 1 ≤ (wait_for_next_frame ⟨0, 1000, 5⟩ 4 ⟨7, -1⟩ ⟨0, 0, 0⟩).frame ∧
      ((∀ f g, (wait_for_next_frame ⟨0, 1000, 5⟩ 4 ⟨7, -1⟩ ⟨0, 0, 0⟩).log
          ≠ TLLog.skipping f g) →
        (wait_for_next_frame ⟨0, 1000, 5⟩ 4 ⟨7, -1⟩ ⟨0, 0, 0⟩).frame
          = 4 + 1))) :=
  ⟨by decide,
    C7_amended_frame_increments ⟨0, 1000, 5⟩ 4 ⟨7, -1⟩ ⟨0, 0, 0⟩ (by decide)⟩

/-- C2: TIMELAPSE with interval 1000 ms on a non-first tick entered
1500 ms past the target deadline: the skip branch fires with
`nskip = 1 + floor(1500/1000) = 2` (logged as restarting at frame + 2 more),
the frame counter advances by exactly 2 extra frames beyond the usual one,
the call sleeps the remaining partial delay of 500 ms, and the deadline
advances by `(2+1) * 1000`; a tick exactly 500 ms (= interval/2) late
also resolves to the skip branch, not the accept-late branch. -/
theorem C2_timelapse_catchup (timeout ct next frame : Int)
    (hnext : next ≠ -1) :
    ((wait_for_next_frame ⟨timeout, 1000, FRAME_NEXT_TIMELAPSE⟩ frame
        ⟨ct, next⟩ ⟨next + 1500, 0, 0⟩).log
        = TLLog.skipping (frame + 1) (frame + 1 + 2) ∧
      (wait_for_next_frame ⟨timeout, 1000, FRAME_NEXT_TIMELAPSE⟩ frame
        ⟨ct, next⟩ ⟨next + 1500, 0, 0⟩).frame = frame + 1 + 2 ∧
      (wait_for_next_frame ⟨timeout, 1000, FRAME_NEXT_TIMELAPSE⟩ frame
        ⟨ct, next⟩ ⟨next + 1500, 0, 0⟩).sleeps = [500] ∧
      (wait_for_next_frame ⟨timeout, 1000, FRAME_NEXT_TIMELAPSE⟩ frame
        ⟨ct, next⟩ ⟨next + 1500, 0, 0⟩).statics.next_frame_ms
        = next + (2 + 1) * 1000) ∧
    (wait_for_next_frame ⟨timeout, 1000, FRAME_NEXT_TIMELAPSE⟩ frame
        ⟨ct, next⟩ ⟨next + 500, 0, 0⟩).log
      = TLLog.skipping (frame + 1) (frame + 1 + 1) := by
  have e1 : next - (next + 1500) = -1500 := by ring
  have e2 : next - (next + 500) = -500 := by ring
  refine ⟨⟨?_, ?_, ?_, ?_⟩, ?_⟩ <;>
    (unfold wait_for_next_frame
     dsimp only
     rw [if_neg (show ¬FRAME_NEXT_TIMELAPSE = FRAME_NEXT_SINGLE by decide),
       if_neg (show ¬FRAME_NEXT_TIMELAPSE = FRAME_NEXT_FOREVER by decide),
       if_pos (show FRAME_NEXT_TIMELAPSE = FRAME_NEXT_TIMELAPSE from rfl),
       if_neg hnext]) <;>
    first
      | (rw [e1, if_pos (show (-1500 : Int) < 0 by decide),
           if_neg (show ¬(-(-1500 : Int) < (1000 : Int).tdiv 2) by decide),
           show (-(-1500 : Int)).tdiv 1000 = 1 by decide]
         norm_num)
      | (rw [e2, if_pos (show (-500 : Int) < 0 by decide),
           if_neg (show ¬(-(-500 : Int) < (1000 : Int).tdiv 2) by decide),
           show (-(-500 : Int)).tdiv 1000 = 0 by decide]
         norm_num)

/-- Closed instance of `C2_timelapse_catchup` at `next = 10000`,
`frame = 0`. -/
theorem C2_timelapse_catchup_witness :
    (10000 : Int) ≠ -1 ∧
    (((wait_for_next_frame ⟨0, 1000, FRAME_NEXT_TIMELAPSE⟩ 0
        ⟨7, 10000⟩ ⟨10000 + 1500, 0, 0⟩).log
        = TLLog.skipping (0 + 1) (0 + 1 + 2) ∧
      (wait_for_next_frame ⟨0, 1000, FRAME_NEXT_TIMELAPSE⟩ 0
        ⟨7, 10000⟩ ⟨10000 + 1500, 0, 0⟩).frame = 0 + 1 + 2 ∧
      (wait_for_next_frame ⟨0, 1000, FRAME_NEXT_TIMELAPSE⟩ 0
        ⟨7, 10000⟩ ⟨10000 + 1500, 0, 0⟩).sleeps = [500] ∧
      (wait_for_next_frame ⟨0, 1000, FRAME_NEXT_TIMELAPSE⟩ 0
        ⟨7, 10000⟩ ⟨10000 + 1500, 0, 0⟩).statics.next_frame_ms
        = 10000 + (2 + 1) * 1000) ∧
    (wait_for_next_frame ⟨0, 1000, FRAME_NEXT_TIMELAPSE⟩ 0
        ⟨7, 10000⟩ ⟨10000 + 500, 0, 0⟩).log
      = TLLog.skipping (0 + 1) (0 + 1 + 1)) :=
  ⟨by decide, C2_timelapse_catchup 0 7 10000 0 (by decide)⟩

/-- One callback invocation with a full (non-short) write posts the
semaphore exactly when the buffer carries an end-of-frame or
transmission-failed marker. -/
theorem countPosts_callback_writeOk (portEnabled : Bool) (b : MMALBuffer)
    (fd0 : Int) (env : CbEnv) (hw : env.writeLen = (b.length : Int)) :
    countPosts (encoder_buffer_callback true portEnabled b fd0 env).trace
      = if b.flagFrameEnd ∨ b.flagTransmissionFailed then 1 else 0 := by
  unfold encoder_buffer_callback countPosts
  dsimp only
  split_ifs <;> simp_all [List.countP_append, List.countP_cons]

/-- C1 amended: the completion semaphore is posted once for every buffer
that carries an end-of-frame or transmission-failed marker **or** whose
payload write is short (src/dashcam.cpp lines 490-494 set the completion
flag on a short write too).  Consequently, in a session whose writes all
succeed in full, the number of posts equals the number of marker buffers
— exactly one post when exactly one buffer carries the marker — but a
session containing a short write can post more than once. -/
theorem C1_amended_posts_count (portEnabled : Bool)
    (bufs : List (MMALBuffer × CbEnv)) (fd0 : Int)
    (hw : ∀ p ∈ bufs, p.2.writeLen = (p.1.length : Int)) :
    countPosts (runSession portEnabled bufs fd0).1
      = bufs.countP
          (fun p => p.1.flagFrameEnd ∨ p.1.flagTransmissionFailed) := by
  induction bufs generalizing fd0 with
  | nil => simp [runSession, countPosts]
  | cons p rest ih =>
    have hw1 : p.2.writeLen = (p.1.length : Int) := hw p (by simp)
    have hwr : ∀ q ∈ rest, q.2.writeLen = (q.1.length : Int) :=
      fun q hq => hw q (by simp [hq])
    obtain ⟨b, env⟩ := p
    unfold runSession countPosts
    dsimp only
    rw [List.countP_append, List.countP_cons]
    have h1 := countPosts_callback_writeOk portEnabled b fd0 env hw1
    unfold countPosts at h1
    rw [h1]
    have h2 := ih
      (encoder_buffer_callback true portEnabled b fd0 env).outputFileFD hwr
    unfold countPosts at h2
    rw [h2]
    dsimp only
    split_ifs <;> simp_all <;> omega

/-- Closed instance of `C1_amended_posts_count`: a two-buffer session with
full writes and one end-of-frame marker posts exactly once. -/
theorem C1_amended_posts_count_witness :
    (∀ p ∈ [((⟨3, false, false⟩ : MMALBuffer),
              (⟨4, 3, true, true⟩ : CbEnv)),
            ((⟨0, true, false⟩ : MMALBuffer),
              (⟨4, 0, true, true⟩ : CbEnv))],
        p.2.writeLen = (p.1.length : Int)) ∧
    countPosts (runSession true
        [(⟨3, false, false⟩, ⟨4, 3, true, true⟩),
         (⟨0, true, false⟩, ⟨4, 0, true, true⟩)] (-1)).1
      = List.countP
          (fun p => p.1.flagFrameEnd ∨ p.1.flagTransmissionFailed)
          [((⟨3, false, false⟩ : MMALBuffer), (⟨4, 3, true, true⟩ : CbEnv)),
           ((⟨0, true, false⟩ : MMALBuffer), (⟨4, 0, true, true⟩ : CbEnv))] :=
  ⟨by decide,
    C1_amended_posts_count true
      [(⟨3, false, false⟩, ⟨4, 3, true, true⟩),
       (⟨0, true, false⟩, ⟨4, 0, true, true⟩)] (-1) (by decide)⟩

/-- C5 amended: a short write (`write` returning a length different from
the buffer's) is logged ("Write error, aborting") and immediately treated
as session completion: the callback posts the completion semaphore in
that same invocation, without waiting for an end-of-frame marker, and
resets the sink fd just as on normal completion — so at the semaphore
level a short write is indistinguishable from an observed end-of-frame,
and an end-of-frame buffer delivered afterwards triggers a second post. -/
theorem C5_amended_short_write_completes (portEnabled : Bool)
    (b : MMALBuffer) (fd0 : Int) (env : CbEnv)
    (hlen : b.length ≠ 0)
    (hfd : 0 < (if fd0 = -1 then env.openFd else fd0))
    (hshort : env.writeLen ≠ (b.length : Int)) :
    CbAction.logWriteError
        ∈ (encoder_buffer_callback true portEnabled b fd0 env).trace ∧
    countPosts (encoder_buffer_callback true portEnabled b fd0 env).trace
      = 1 ∧
    (encoder_buffer_callback true portEnabled b fd0 env).outputFileFD
      = 0 := by
  unfold encoder_buffer_callback countPosts
  dsimp only
  split_ifs <;> simp_all [List.countP_append, List.countP_cons]

/-- Closed instance of `C5_amended_short_write_completes`: 5 payload
bytes, `write` returns 4, no marker flags. -/
theorem C5_amended_witness :
    ((5 : Nat) ≠ 0 ∧
      (0 : Int) < (if (8 : Int) = -1 then (9 : Int) else 8) ∧
      (4 : Int) ≠ ((5 : Nat) : Int)) ∧
    (CbAction.logWriteError
        ∈ (encoder_buffer_callback true true ⟨5, false, false⟩ 8
            ⟨9, 4, true, true⟩).trace ∧
      countPosts (encoder_buffer_callback true true ⟨5, false, false⟩ 8
          ⟨9, 4, true, true⟩).trace = 1 ∧
      (encoder_buffer_callback true true ⟨5, false, false⟩ 8
          ⟨9, 4, true, true⟩).outputFileFD = 0) :=
  ⟨⟨by decide, by decide, by decide⟩,
    C5_amended_short_write_completes true ⟨5, false, false⟩ 8
      ⟨9, 4, true, true⟩ (by decide) (by decide) (by decide)⟩

/-- A TIMELAPSE call whose `next_frame_ms` static is still `-1` (first
tick): sleep the full interval, re-read the clock, set the deadline. -/
theorem timelapse_tick_first (timeout interval ct frame : Int)
    (env : WaitEnv) (hct : ct ≠ -1) :
    wait_for_next_frame ⟨timeout, interval, FRAME_NEXT_TIMELAPSE⟩ frame
        ⟨ct, -1⟩ env
      = { ret := if env.now ≥ ct ∧ timeout ≠ 0 then 0 else 1,
          frame := frame + 1,
          statics := ⟨ct, env.nowAfterSleep + interval⟩,
          sleeps := [interval], log := TLLog.none } := by
  unfold wait_for_next_frame
  dsimp only
  rw [if_neg (show ¬FRAME_NEXT_TIMELAPSE = FRAME_NEXT_SINGLE by decide),
    if_neg (show ¬FRAME_NEXT_TIMELAPSE = FRAME_NEXT_FOREVER by decide),
    if_pos (show FRAME_NEXT_TIMELAPSE = FRAME_NEXT_TIMELAPSE from rfl),
    if_neg hct, if_pos (show (-1 : Int) = -1 from rfl)]

/-- A TIMELAPSE call that is on time or early (`next - now ≥ 0`): sleep
exactly the remaining drift and advance the deadline by one interval. -/
theorem timelapse_tick_ontime (timeout interval ct next frame : Int)
    (env : WaitEnv) (hct : ct ≠ -1) (hnext : next ≠ -1)
    (hd : 0 ≤ next - env.now) :
    wait_for_next_frame ⟨timeout, interval, FRAME_NEXT_TIMELAPSE⟩ frame
        ⟨ct, next⟩ env
      = { ret := if env.now ≥ ct ∧ timeout ≠ 0 then 0 else 1,
          frame := frame + 1,
          statics := ⟨ct, next + interval⟩,
          sleeps := [next - env.now], log := TLLog.none } := by
  unfold wait_for_next_frame
  dsimp only
  rw [if_neg (show ¬FRAME_NEXT_TIMELAPSE = FRAME_NEXT_SINGLE by decide),
    if_neg (show ¬FRAME_NEXT_TIMELAPSE = FRAME_NEXT_FOREVER by decide),
    if_pos (show FRAME_NEXT_TIMELAPSE = FRAME_NEXT_TIMELAPSE from rfl),
    if_neg hct, if_neg hnext,
    if_neg (show ¬(next - env.now < 0) by omega)]

/-- Closed form of the zero-processing-delay TIMELAPSE run: after `n + 1`
ticks started at time `t0`, the wake time is `t0 + (n+1)·interval`, the
frame counter has advanced by `n + 1`, and the deadline is
`t0 + (n+2)·interval`. -/
theorem timelapseRun_closed (timeout interval t0 f0 ct : Int)
    (hi : 0 ≤ interval) (ht0 : 0 ≤ t0) (hct : ct ≠ -1) :
    ∀ n : Nat,
      timelapseRun ⟨timeout, interval, FRAME_NEXT_TIMELAPSE⟩ (n + 1)
          (t0, f0, ⟨ct, -1⟩)
        = (t0 + ((n : Int) + 1) * interval, f0 + ((n : Int) + 1),
            ⟨ct, t0 + ((n : Int) + 2) * interval⟩) := by
  intro n
  induction n with
  | zero =>
    have h0 : timelapseRun ⟨timeout, interval, FRAME_NEXT_TIMELAPSE⟩ 0
        (t0, f0, (⟨ct, -1⟩ : WaitStatics)) = (t0, f0, ⟨ct, -1⟩) := rfl
    show timelapseRun _ (0 + 1) _ = _
    unfold timelapseRun
    dsimp only
    rw [h0]
    dsimp only
    rw [timelapse_tick_first _ _ _ _ _ hct]
    dsimp
    simp only [Prod.mk.injEq, WaitStatics.mk.injEq, true_and, and_true]
    and_intros <;> (push_cast; ring)
  | succ k ih =>
    have hnn : (0 : Int) ≤ ((k : Int) + 2) * interval :=
      mul_nonneg (by positivity) hi
    have hnext : t0 + ((k : Int) + 2) * interval ≠ -1 := by
      intro h; linarith
    show timelapseRun _ (k + 1 + 1) _ = _
    unfold timelapseRun
    dsimp only
    rw [ih]
    dsimp only
    rw [timelapse_tick_ontime _ _ _ _ _ _ hct hnext
      (by
        dsimp
        have h : t0 + ((k : Int) + 2) * interval
            - (t0 + ((k : Int) + 1) * interval) = interval := by ring
        linarith)]
    dsimp
    simp only [Prod.mk.injEq, WaitStatics.mk.injEq, true_and, and_true]
    and_intros <;> (push_cast; ring)

/-- C6: TIMELAPSE with interval 1000 ms and zero processing delay (each
call entered at the previous call's wake time).  After any tick, the next
tick finds a drift of exactly one interval, sleeps exactly that drift,
logs neither a late nor a skip event, and advances the deadline by
exactly one interval; after 100 ticks the deadline shows zero cumulative
drift from `start + 100·interval` (where `start = t0 + 1000` is the wake
time of the first tick), the frame counter has advanced by exactly 100,
and the wake time is exactly `t0 + 100·1000`. -/
theorem C6_timelapse_zero_drift (timeout t0 f0 ct : Int)
    (ht0 : 0 ≤ t0) (hct : ct ≠ -1) :
    (∀ n : Nat,
      ((timelapseRun ⟨timeout, 1000, FRAME_NEXT_TIMELAPSE⟩ (n + 1)
            (t0, f0, ⟨ct, -1⟩)).2.2.next_frame_ms
          - (timelapseRun ⟨timeout, 1000, FRAME_NEXT_TIMELAPSE⟩ (n + 1)
            (t0, f0, ⟨ct, -1⟩)).1 = 1000) ∧
      (wait_for_next_frame ⟨timeout, 1000, FRAME_NEXT_TIMELAPSE⟩
          (timelapseRun ⟨timeout, 1000, FRAME_NEXT_TIMELAPSE⟩ (n + 1)
            (t0, f0, ⟨ct, -1⟩)).2.1
          (timelapseRun ⟨timeout, 1000, FRAME_NEXT_TIMELAPSE⟩ (n + 1)
            (t0, f0, ⟨ct, -1⟩)).2.2
          ⟨(timelapseRun ⟨timeout, 1000, FRAME_NEXT_TIMELAPSE⟩ (n + 1)
              (t0, f0, ⟨ct, -1⟩)).1,
            (timelapseRun ⟨timeout, 1000, FRAME_NEXT_TIMELAPSE⟩ (n + 1)
              (t0, f0, ⟨ct, -1⟩)).1 + 1000, 0⟩).sleeps = [1000] ∧
      (wait_for_next_frame ⟨timeout, 1000, FRAME_NEXT_TIMELAPSE⟩
          (timelapseRun ⟨timeout, 1000, FRAME_NEXT_TIMELAPSE⟩ (n + 1)
            (t0, f0, ⟨ct, -1⟩)).2.1
          (timelapseRun ⟨timeout, 1000, FRAME_NEXT_TIMELAPSE⟩ (n + 1)
            (t0, f0, ⟨ct, -1⟩)).2.2
          ⟨(timelapseRun ⟨timeout, 1000, FRAME_NEXT_TIMELAPSE⟩ (n + 1)
              (t0, f0, ⟨ct, -1⟩)).1,
            (timelapseRun ⟨timeout, 1000, FRAME_NEXT_TIMELAPSE⟩ (n + 1)
              (t0, f0, ⟨ct, -1⟩)).1 + 1000, 0⟩).log = TLLog.none) ∧
    (timelapseRun ⟨timeout, 1000, FRAME_NEXT_TIMELAPSE⟩ 100
        (t0, f0, ⟨ct, -1⟩)).2.2.next_frame_ms
      - ((t0 + 1000) + 100 * 1000) = 0 ∧
    (timelapseRun ⟨timeout, 1000, FRAME_NEXT_TIMELAPSE⟩ 100
        (t0, f0, ⟨ct, -1⟩)).2.1 = f0 + 100 ∧
    (timelapseRun ⟨timeout, 1000, FRAME_NEXT_TIMELAPSE⟩ 100
        (t0, f0, ⟨ct, -1⟩)).1 = t0 + 100 * 1000 := by
  have hcf := timelapseRun_closed timeout 1000 t0 f0 ct (by norm_num) ht0 hct
  refine ⟨?_, ?_, ?_, ?_⟩
  · intro n
    rw [hcf n]
    dsimp only
    have hnn : (0 : Int) ≤ ((n : Int) + 2) * 1000 :=
      mul_nonneg (by positivity) (by norm_num)
    have hnext : t0 + ((n : Int) + 2) * 1000 ≠ -1 := by
      intro h; linarith
    rw [timelapse_tick_ontime _ _ _ _ _ _ hct hnext
      (by dsimp; linarith [show t0 + ((n : Int) + 2) * 1000
          - (t0 + ((n : Int) + 1) * 1000) = 1000 from by ring])]
    dsimp
    refine ⟨by ring, by simp; ring, rfl⟩
  · rw [show (100 : Nat) = 99 + 1 from rfl, hcf 99]
    dsimp only
    push_cast
    ring
  · rw [show (100 : Nat) = 99 + 1 from rfl, hcf 99]
    dsimp only
    push_cast
    ring
  · rw [show (100 : Nat) = 99 + 1 from rfl, hcf 99]
    dsimp only
    push_cast
    ring

/-- Closed instance of `C6_timelapse_zero_drift` at `t0 = 0`, `f0 = 0`:
zero deadline drift and exactly 100 frames after 100 ticks. -/
theorem C6_timelapse_zero_drift_witness :
    (0 : Int) ≤ 0 ∧ (7 : Int) ≠ -1 ∧
    ((timelapseRun ⟨0, 1000, FRAME_NEXT_TIMELAPSE⟩ 100
        (0, 0, ⟨7, -1⟩)).2.2.next_frame_ms
      - ((0 + 1000) + 100 * 1000) = 0) ∧
    (timelapseRun ⟨0, 1000, FRAME_NEXT_TIMELAPSE⟩ 100
        (0, 0, ⟨7, -1⟩)).2.1 = 0 + 100 :=
  ⟨le_refl 0, by decide,
    (C6_timelapse_zero_drift 0 0 0 7 (le_refl 0) (by decide)).2.1,
    (C6_timelapse_zero_drift 0 0 0 7 (le_refl 0) (by decide)).2.2.1⟩
